import Mathlib

/-
Verification of the sales-dashboard analytics pipeline in src/dash2.py.

The embedding models:
  * the synthetic data generator `generate_sales_data` (lines 10-55), with the
    numpy pseudo-random sequence abstracted as a stream `f : ℕ → ℚ` of unit
    draws in [0, 1) consumed in program order (one draw per call to
    `np.random.randint`, `np.random.choice`, `np.random.uniform`);
  * the filter pipeline `filtered_df` / `previous_df` (lines 95-113);
  * the KPI computations (lines 115-142);
  * the grouped top-N aggregations `product_revenue` (line 190) and
    `top_products` (lines 237-240).

Money amounts are rationals; `round(x, 2)` is modelled as rounding to the
nearest cent (ties upward; no property below exercises a tie). Calendar days
are modelled as integers (day 0 = 2024-01-01, day 328 = 2024-11-24).
-/

namespace Dash

/-- Computable floor of a rational (numerator divided by denominator). -/
def floorQ (x : ℚ) : ℤ := x.num / x.den

theorem floorQ_eq (x : ℚ) : floorQ x = ⌊x⌋ := (Rat.floor_def).symm

theorem floorQ_eq_of {x : ℚ} {z : ℤ} (h1 : (z : ℚ) ≤ x) (h2 : x < z + 1) : floorQ x = z := by
  rw [floorQ_eq]
  exact Int.floor_eq_iff.mpr ⟨h1, h2⟩

/-- Rounding to 2 decimal places, as in `round(price, 2)` on lines 50-51. -/
def round2 (x : ℚ) : ℚ := ((floorQ (x * 100 + 1/2) : ℚ)) / 100

/-- One row of the generated DataFrame (lines 44-52). -/
structure Transaction where
  date : ℤ
  product : String
  category : String
  region : String
  quantity : ℕ
  unit_price : ℚ
  revenue : ℚ

/-- Product catalog (line 18). -/
def products : List String :=
  ["Laptop", "Smartphone", "Tablet", "Headphones", "Monitor", "Keyboard", "Mouse", "Webcam"]

/-- Region catalog (line 19). -/
def regions : List String :=
  ["North America", "Europe", "Asia", "South America", "Africa"]

/-- Category of a product, per the branch on lines 28-39. -/
def categoryOf (p : String) : String :=
  if p = "Laptop" ∨ p = "Monitor" then "Computers"
  else if p = "Smartphone" ∨ p = "Tablet" then "Electronics"
  else if p = "Headphones" ∨ p = "Webcam" then "Audio"
  else "Accessories"

/-- Lower bound of the price range drawn in the branch on lines 28-39. -/
def priceLo (p : String) : ℚ :=
  if p = "Laptop" ∨ p = "Monitor" then 500
  else if p = "Smartphone" ∨ p = "Tablet" then 300
  else if p = "Headphones" ∨ p = "Webcam" then 50
  else 20

/-- Upper bound of the price range drawn in the branch on lines 28-39. -/
def priceHi (p : String) : ℚ :=
  if p = "Laptop" ∨ p = "Monitor" then 2000
  else if p = "Smartphone" ∨ p = "Tablet" then 1200
  else if p = "Headphones" ∨ p = "Webcam" then 400
  else 150

/-- Model of `np.random.randint(lo, hi)` applied to a unit draw `u`. -/
def randBelow (u : ℚ) (lo hi : ℕ) : ℕ := lo + (floorQ (u * ((hi : ℚ) - (lo : ℚ)))).toNat

/-- Model of `np.random.uniform(lo, hi)` applied to a unit draw `u`. -/
def uniformDraw (u lo hi : ℚ) : ℚ := lo + u * (hi - lo)

/-- Model of `np.random.choice(xs)` applied to a unit draw `u`. -/
def choiceDraw (u : ℚ) (xs : List String) : String := xs.getD (randBelow u 0 xs.length) ""

/-- The product drawn on line 26 (draw at stream position `i`). -/
def txProduct (f : ℕ → ℚ) (i : ℕ) : String := choiceDraw (f i) products

/-- The raw (unrounded) price drawn on lines 28-39. -/
def txPrice (f : ℕ → ℚ) (i : ℕ) : ℚ :=
  uniformDraw (f (i + 1)) (priceLo (txProduct f i)) (priceHi (txProduct f i))

/-- The quantity drawn on line 41: `np.random.randint(1, 10)`. -/
def txQuantity (f : ℕ → ℚ) (i : ℕ) : ℕ := randBelow (f (i + 2)) 1 10

/-- The region drawn on line 48. -/
def txRegion (f : ℕ → ℚ) (i : ℕ) : String := choiceDraw (f (i + 3)) regions

/-- One appended row (lines 25-52): consumes the four draws at positions
`i, i+1, i+2, i+3`; `revenue = price * quantity` (line 42), and both price and
revenue are rounded to 2 decimals when stored (lines 50-51). -/
def genTransaction (f : ℕ → ℚ) (i : ℕ) (d : ℤ) : Transaction :=
  { date := d
    product := txProduct f i
    category := categoryOf (txProduct f i)
    region := txRegion f i
    quantity := txQuantity f i
    unit_price := round2 (txPrice f i)
    revenue := round2 (txPrice f i * (txQuantity f i : ℚ)) }

/-- The inner loop on line 25: `n` transactions for one day, threading the
stream position (4 draws per transaction). -/
def genTransactions (f : ℕ → ℚ) (i : ℕ) (d : ℤ) : ℕ → List Transaction
  | 0 => []
  | n + 1 => genTransaction f i d :: genTransactions f (i + 4) d n

/-- One day of the outer loop (lines 23-24): draw
`num_transactions = np.random.randint(5, 15)` and generate that many rows.
Returns the rows together with the next unread stream position. -/
def genDay (f : ℕ → ℚ) (i : ℕ) (d : ℤ) : List Transaction × ℕ :=
  (genTransactions f (i + 1) d (randBelow (f i) 5 15), i + 1 + 4 * randBelow (f i) 5 15)

/-- The outer loop over the date range (line 23). -/
def genDays (f : ℕ → ℚ) (i : ℕ) : List ℤ → List Transaction
  | [] => []
  | d :: ds => (genDay f i d).1 ++ genDays f (genDay f i d).2 ds

/-- Number of days from 2024-01-01 to 2024-11-24 inclusive (lines 14-16). -/
def numDays : ℕ := 329

/-- The generation date range `pd.date_range(start, end, freq=...)` (line 16),
as day offsets from 2024-01-01. -/
def dateRange : List ℤ := (List.range numDays).map (fun n : ℕ => (n : ℤ))

/-- The generator (lines 10-55): the seeded numpy sequence is abstracted as
the unit-draw stream `f`, which `np.random.seed(42)` fixes once. -/
def generate_sales_data (f : ℕ → ℚ) : List Transaction := genDays f 0 dateRange

/-- Streams of pseudo-random unit draws: every value lies in `[0, 1)`. -/
def UnitStream (f : ℕ → ℚ) : Prop := ∀ n, 0 ≤ f n ∧ f n < 1

/-- The sidebar filter state (lines 62-93): an inclusive date window plus the
three multiselect lists. -/
structure Selection where
  start_date : ℤ
  end_date : ℤ
  categories : List String
  regions : List String
  products : List String

/-- The row predicate of `filtered_df` (lines 95-101). -/
def matchesFilters (sel : Selection) (r : Transaction) : Bool :=
  decide (sel.start_date ≤ r.date) && decide (r.date ≤ sel.end_date) &&
  decide (r.category ∈ sel.categories) && decide (r.region ∈ sel.regions) &&
  decide (r.product ∈ sel.products)

/-- `filtered_df` (lines 95-101). -/
def filtered_df (df : List Transaction) (sel : Selection) : List Transaction :=
  df.filter (matchesFilters sel)

/-- `period_days` (line 103). -/
def period_days (sel : Selection) : ℤ := sel.end_date - sel.start_date + 1

/-- `previous_start` (line 104). -/
def previous_start (sel : Selection) : ℤ := sel.start_date - period_days sel

/-- `previous_end` (line 105). -/
def previous_end (sel : Selection) : ℤ := sel.start_date - 1

/-- The row predicate of `previous_df` (lines 107-113). -/
def matchesPrevious (sel : Selection) (r : Transaction) : Bool :=
  decide (previous_start sel ≤ r.date) && decide (r.date ≤ previous_end sel) &&
  decide (r.category ∈ sel.categories) && decide (r.region ∈ sel.regions) &&
  decide (r.product ∈ sel.products)

/-- `previous_df` (lines 107-113). -/
def previous_df (df : List Transaction) (sel : Selection) : List Transaction :=
  df.filter (matchesPrevious sel)

/-- `filtered_df['Revenue'].sum()` (lines 115, 126). -/
def total_revenue (l : List Transaction) : ℚ := (l.map (fun r => r.revenue)).sum

/-- `len(filtered_df)` (line 130). -/
def total_transactions (l : List Transaction) : ℕ := l.length

/-- `filtered_df['Revenue'].mean() if len(filtered_df) > 0 else 0` (line 134). -/
def avg_transaction (l : List Transaction) : ℚ :=
  if 0 < l.length then total_revenue l / (l.length : ℚ) else 0

/-- `filtered_df['Quantity'].sum()` (line 138). -/
def total_quantity (l : List Transaction) : ℕ := (l.map (fun r => r.quantity)).sum

/-- The growth-rate computation (lines 118-121). -/
def growth_rate (current_revenue previous_revenue : ℚ) : ℚ :=
  if 0 < previous_revenue then
    ((current_revenue - previous_revenue) / previous_revenue) * 100
  else 0

/-- The growth-rate KPI as wired on lines 115-121. -/
def growth_rate_kpi (df : List Transaction) (sel : Selection) : ℚ :=
  growth_rate (total_revenue (filtered_df df sel)) (total_revenue (previous_df df sel))

/-- Distinct group keys of `groupby('Product')`. -/
def productKeys (l : List Transaction) : List String := (l.map (fun r => r.product)).dedup

/-- Summed revenue of one product group. -/
def revenueFor (l : List Transaction) (p : String) : ℚ :=
  total_revenue (l.filter (fun r => r.product == p))

/-- Summed quantity of one product group. -/
def quantityFor (l : List Transaction) (p : String) : ℕ :=
  total_quantity (l.filter (fun r => r.product == p))

/-- Descending-revenue order on (product, revenue) rows. -/
def revDescPair (a b : String × ℚ) : Prop := b.2 ≤ a.2

instance : DecidableRel revDescPair := fun a b => inferInstanceAs (Decidable (b.2 ≤ a.2))

instance : IsTotal (String × ℚ) revDescPair := ⟨fun a b => le_total b.2 a.2⟩

instance : IsTrans (String × ℚ) revDescPair := ⟨fun _ _ _ h1 h2 => le_trans h2 h1⟩

/-- Descending-revenue order on (product, quantity, revenue) rows. -/
def revDescTriple (a b : String × ℕ × ℚ) : Prop := b.2.2 ≤ a.2.2

instance : DecidableRel revDescTriple := fun a b => inferInstanceAs (Decidable (b.2.2 ≤ a.2.2))

instance : IsTotal (String × ℕ × ℚ) revDescTriple := ⟨fun a b => le_total b.2.2 a.2.2⟩

instance : IsTrans (String × ℕ × ℚ) revDescTriple := ⟨fun _ _ _ h1 h2 => le_trans h2 h1⟩

/-- `groupby('Product')['Revenue'].sum() ... sort_values(ascending=False).head(8)`
(line 190). -/
def product_revenue (l : List Transaction) : List (String × ℚ) :=
  (List.insertionSort revDescPair
    ((productKeys l).map (fun p => (p, revenueFor l p)))).take 8

/-- `groupby('Product').agg(Quantity sum, Revenue sum).sort_values('Revenue',
ascending=False).head(5)` (lines 237-240). -/
def top_products (l : List Transaction) : List (String × ℕ × ℚ) :=
  (List.insertionSort revDescTriple
    ((productKeys l).map (fun p => (p, quantityFor l p, revenueFor l p)))).take 5

/-! Facts about the pseudo-random draws and the generator. -/

theorem randBelow_bounds {u : ℚ} (h0 : 0 ≤ u) (h1 : u < 1) {lo hi : ℕ} (hlt : lo < hi) :
    lo ≤ randBelow u lo hi ∧ randBelow u lo hi < hi := by
  unfold randBelow
  have hc : (0 : ℚ) < (hi : ℚ) - (lo : ℚ) := by
    have : (lo : ℚ) < (hi : ℚ) := by exact_mod_cast hlt
    linarith
  have hnn : 0 ≤ floorQ (u * ((hi : ℚ) - (lo : ℚ))) := by
    rw [floorQ_eq]
    exact Int.le_floor.mpr (by positivity)
  have hub : floorQ (u * ((hi : ℚ) - (lo : ℚ))) < (hi : ℤ) - (lo : ℤ) := by
    rw [floorQ_eq, Int.floor_lt]
    push_cast
    nlinarith
  omega

theorem choiceDraw_mem {u : ℚ} (h0 : 0 ≤ u) (h1 : u < 1) {xs : List String} (hx : xs ≠ []) :
    choiceDraw u xs ∈ xs := by
  unfold choiceDraw
  have hlen : 0 < xs.length := List.length_pos.mpr hx
  have hb := (randBelow_bounds h0 h1 hlen).2
  rw [List.getD_eq_getElem _ _ hb]
  exact List.getElem_mem _

theorem choiceDraw_zero (xs : List String) : choiceDraw 0 xs = xs.getD 0 "" := by
  unfold choiceDraw randBelow
  have h : floorQ (0 * ((xs.length : ℚ) - ((0 : ℕ) : ℚ))) = 0 := by
    have h2 : (0 : ℚ) * ((xs.length : ℚ) - ((0 : ℕ) : ℚ)) = 0 := by ring
    rw [h2]
    exact floorQ_eq_of (by norm_num) (by norm_num)
  rw [h]
  simp

theorem uniformDraw_bounds {u lo hi : ℚ} (h0 : 0 ≤ u) (h1 : u < 1) (hlt : lo < hi) :
    lo ≤ uniformDraw u lo hi ∧ uniformDraw u lo hi < hi := by
  unfold uniformDraw
  constructor <;> nlinarith

theorem priceLo_lt_priceHi (p : String) : priceLo p < priceHi p := by
  unfold priceLo priceHi
  split_ifs <;> norm_num

theorem products_ne_nil : products ≠ [] := by simp [products]

theorem regions_ne_nil : regions ≠ [] := by simp [regions]

/-- Everything line 25-52 guarantees about a single generated row. -/
theorem genTransaction_spec (f : ℕ → ℚ) (hf : UnitStream f) (i : ℕ) (d : ℤ) :
    (genTransaction f i d).date = d ∧
    (genTransaction f i d).product ∈ products ∧
    (genTransaction f i d).category = categoryOf ((genTransaction f i d).product) ∧
    (genTransaction f i d).region ∈ regions ∧
    1 ≤ (genTransaction f i d).quantity ∧ (genTransaction f i d).quantity < 10 ∧
    ∃ p, priceLo ((genTransaction f i d).product) ≤ p ∧
      p < priceHi ((genTransaction f i d).product) ∧
      (genTransaction f i d).unit_price = round2 p ∧
      (genTransaction f i d).revenue = round2 (p * (((genTransaction f i d).quantity : ℕ) : ℚ)) := by
  obtain ⟨h0i, h1i⟩ := hf i
  obtain ⟨h02, h12⟩ := hf (i + 1)
  obtain ⟨h03, h13⟩ := hf (i + 2)
  obtain ⟨h04, h14⟩ := hf (i + 3)
  have hq := randBelow_bounds h03 h13 (show 1 < 10 by norm_num)
  refine ⟨rfl, choiceDraw_mem h0i h1i products_ne_nil, rfl,
    choiceDraw_mem h04 h14 regions_ne_nil, hq.1, hq.2, txPrice f i, ?_, ?_, rfl, rfl⟩
  · exact (uniformDraw_bounds h02 h12 (priceLo_lt_priceHi _)).1
  · exact (uniformDraw_bounds h02 h12 (priceLo_lt_priceHi _)).2

theorem genTransaction_date (f : ℕ → ℚ) (i : ℕ) (d : ℤ) : (genTransaction f i d).date = d :=
  rfl

theorem mem_genTransactions {f : ℕ → ℚ} {d : ℤ} {r : Transaction} :
    ∀ {n i : ℕ}, r ∈ genTransactions f i d n → ∃ j, r = genTransaction f j d := by
  intro n
  induction n with
  | zero =>
    intro i h
    simp [genTransactions] at h
  | succ m ih =>
    intro i h
    rw [genTransactions] at h
    rcases List.mem_cons.mp h with h | h
    · exact ⟨i, h⟩
    · exact ih h

theorem genTransactions_length {f : ℕ → ℚ} {d : ℤ} :
    ∀ (n : ℕ) (i : ℕ), (genTransactions f i d n).length = n := by
  intro n
  induction n with
  | zero => intro i; rfl
  | succ m ih =>
    intro i
    rw [genTransactions, List.length_cons, ih]

theorem mem_genDays {f : ℕ → ℚ} {r : Transaction} :
    ∀ (ds : List ℤ) (i : ℕ), r ∈ genDays f i ds →
      (∃ j, r = genTransaction f j r.date) ∧ r.date ∈ ds := by
  intro ds
  induction ds with
  | nil =>
    intro i h
    simp [genDays] at h
  | cons e es ih =>
    intro i h
    rw [genDays] at h
    rcases List.mem_append.mp h with h | h
    · obtain ⟨j, hj⟩ := mem_genTransactions h
      have hd : r.date = e := by rw [hj, genTransaction_date]
      refine ⟨⟨j, ?_⟩, ?_⟩
      · rw [hd]
        exact hj
      · rw [hd]
        exact List.mem_cons_self e es
    · obtain ⟨hj, hmem⟩ := ih _ h
      exact ⟨hj, List.mem_cons_of_mem _ hmem⟩

/-- Number of generated rows carrying a given date. -/
def countDate (l : List Transaction) (d : ℤ) : ℕ :=
  (l.filter (fun r => decide (r.date = d))).length

theorem countDate_append (l1 l2 : List Transaction) (d : ℤ) :
    countDate (l1 ++ l2) d = countDate l1 d + countDate l2 d := by
  simp [countDate, List.filter_append]

theorem countDate_genTransactions (f : ℕ → ℚ) (d : ℤ) :
    ∀ (n i : ℕ), countDate (genTransactions f i d n) d = n := by
  intro n i
  have hall : (genTransactions f i d n).filter (fun r => decide (r.date = d)) =
      genTransactions f i d n := by
    apply List.filter_eq_self.mpr
    intro r hr
    obtain ⟨j, hj⟩ := mem_genTransactions hr
    rw [hj]
    simp [genTransaction_date]
  rw [countDate, hall, genTransactions_length]

theorem countDate_genTransactions_ne (f : ℕ → ℚ) {d e : ℤ} (hne : d ≠ e) :
    ∀ (n i : ℕ), countDate (genTransactions f i d n) e = 0 := by
  intro n i
  rw [countDate]
  have hnil : (genTransactions f i d n).filter (fun r => decide (r.date = e)) = [] := by
    apply List.filter_eq_nil_iff.mpr
    intro r hr
    obtain ⟨j, hj⟩ := mem_genTransactions hr
    rw [hj]
    simp [genTransaction_date]
    exact fun hc => hne hc
  rw [hnil]
  rfl

theorem countDate_genDays_zero {f : ℕ → ℚ} {d : ℤ} :
    ∀ (ds : List ℤ) (i : ℕ), d ∉ ds → countDate (genDays f i ds) d = 0 := by
  intro ds i hd
  rw [countDate]
  have hnil : (genDays f i ds).filter (fun r => decide (r.date = d)) = [] := by
    apply List.filter_eq_nil_iff.mpr
    intro r hr
    obtain ⟨_, hmem⟩ := mem_genDays ds i hr
    simp only [decide_eq_true_eq]
    intro hc
    exact hd (hc ▸ hmem)
  rw [hnil]
  rfl

theorem countDate_genDays {f : ℕ → ℚ} (hf : UnitStream f) :
    ∀ (ds : List ℤ), ds.Nodup → ∀ (i : ℕ) (d : ℤ), d ∈ ds →
      5 ≤ countDate (genDays f i ds) d ∧ countDate (genDays f i ds) d < 15 := by
  intro ds
  induction ds with
  | nil =>
    intro _ i d hd
    simp at hd
  | cons e es ih =>
    intro hnd i d hd
    rw [genDays, countDate_append]
    rcases List.mem_cons.mp hd with he | hes
    · subst he
      have h1 : countDate (genDay f i d).1 d = randBelow (f i) 5 15 :=
        countDate_genTransactions f d _ _
      have h2 : countDate (genDays f (genDay f i d).2 es) d = 0 :=
        countDate_genDays_zero es _ (List.nodup_cons.mp hnd).1
      rw [h1, h2]
      have hb := randBelow_bounds (hf i).1 (hf i).2 (show 5 < 15 by norm_num)
      omega
    · have hne : e ≠ d := fun hc => (List.nodup_cons.mp hnd).1 (hc ▸ hes)
      have h1 : countDate (genDay f i e).1 d = 0 :=
        countDate_genTransactions_ne f hne _ _
      rw [h1]
      simpa using ih (List.nodup_cons.mp hnd).2 _ d hes

theorem dateRange_nodup : dateRange.Nodup := by
  refine List.Nodup.map ?_ (List.nodup_range numDays)
  exact fun a b h => by exact_mod_cast h

/-- The first row generated for the first day is always in the output: the
per-day transaction count is at least 5, so day 0 is never empty. -/
theorem head_mem_generate (f : ℕ → ℚ) : genTransaction f 1 0 ∈ generate_sales_data f := by
  obtain ⟨t, ht⟩ : ∃ t, dateRange = (0 : ℤ) :: t := by
    refine ⟨((List.range 328).map Nat.succ).map (fun n : ℕ => (n : ℤ)), ?_⟩
    unfold dateRange numDays
    rw [show (329 : ℕ) = 328 + 1 by norm_num, List.range_succ_eq_map, List.map_cons]
    norm_num
  unfold generate_sales_data
  rw [ht, genDays]
  apply List.mem_append_left
  obtain ⟨m, hm⟩ : ∃ m, randBelow (f 0) 5 15 = m + 1 :=
    ⟨randBelow (f 0) 5 15 - 1, by unfold randBelow; omega⟩
  show genTransaction f 1 0 ∈ genTransactions f (0 + 1) 0 (randBelow (f 0) 5 15)
  rw [hm, genTransactions]
  exact List.mem_cons_self _ _

/-! Concrete inputs used to instantiate the theorems below. -/

/-- A sample transaction row. -/
def t1 : Transaction :=
  { date := 5, product := "Laptop", category := "Computers", region := "North America",
    quantity := 2, unit_price := 600, revenue := 1200 }

/-- A one-row sample log. -/
def df1 : List Transaction := [t1]

/-- A sample selection matching `t1`. -/
def sel1 : Selection :=
  { start_date := 0, end_date := 9, categories := ["Computers"],
    regions := ["North America"], products := ["Laptop"] }

/-- A sample selection whose category multiselect is empty. -/
def selEmpty : Selection :=
  { start_date := 0, end_date := 9, categories := [],
    regions := ["North America"], products := ["Laptop"] }

/-- The all-zero unit-draw stream. -/
def zeroStream : ℕ → ℚ := fun _ => 0

theorem zeroStream_unit : UnitStream zeroStream := by
  intro n
  constructor <;> norm_num [zeroStream]

/-! Theorems for the claims. -/

/-- C2. The growth-rate KPI equals
`(current_revenue - previous_revenue) / previous_revenue * 100` whenever the
previous period's total revenue is strictly positive, and equals exactly 0
whenever the previous period's total revenue is zero; in particular current
1200 with previous 1000 gives 20.0, and previous 0 with current 500 gives 0. -/
theorem growth_rate_policy (current_revenue previous_revenue : ℚ) :
    (0 < previous_revenue →
      growth_rate current_revenue previous_revenue =
        ((current_revenue - previous_revenue) / previous_revenue) * 100) ∧
    (previous_revenue = 0 → growth_rate current_revenue previous_revenue = 0) ∧
    growth_rate 1200 1000 = 20 ∧ growth_rate 500 0 = 0 := by
  refine ⟨fun h => if_pos h, fun h => ?_, by norm_num [growth_rate], by norm_num [growth_rate]⟩
  rw [growth_rate, if_neg]
  rw [h]
  exact lt_irrefl 0

/-- Witness for C2 at current revenue 1200 and previous revenue 1000. -/
theorem growth_rate_policy_witness :
    (0 : ℚ) < 1000 ∧ growth_rate 1200 1000 = ((1200 - 1000) / 1000) * 100 :=
  ⟨by norm_num, (growth_rate_policy 1200 1000).1 (by norm_num)⟩

/-- C3. A record of the log appears in the filtered subset iff the date-range,
category, region and product predicates all hold (conjunctive semantics). -/
theorem filtered_df_conjunctive (df : List Transaction) (sel : Selection) (r : Transaction)
    (hr : r ∈ df) :
    r ∈ filtered_df df sel ↔
      sel.start_date ≤ r.date ∧ r.date ≤ sel.end_date ∧ r.category ∈ sel.categories ∧
        r.region ∈ sel.regions ∧ r.product ∈ sel.products := by
  simp [filtered_df, List.mem_filter, matchesFilters, hr, and_assoc]

/-- Witness for C3 at the sample log and selection. -/
theorem filtered_df_conjunctive_witness :
    t1 ∈ df1 ∧
      (t1 ∈ filtered_df df1 sel1 ↔
        sel1.start_date ≤ t1.date ∧ t1.date ≤ sel1.end_date ∧ t1.category ∈ sel1.categories ∧
          t1.region ∈ sel1.regions ∧ t1.product ∈ sel1.products) :=
  ⟨List.mem_singleton.mpr rfl, filtered_df_conjunctive df1 sel1 t1 (List.mem_singleton.mpr rfl)⟩

/-- C4. The previous-period window has exactly the current period's length in
days, with `previous_end = start_date - 1` and
`previous_start = previous_end - period_days + 1`, and the previous-period
subset applies the same category/region/product predicates with the previous
date window. -/
theorem previous_window_spec (df : List Transaction) (sel : Selection) (r : Transaction)
    (h : sel.start_date ≤ sel.end_date) :
    period_days sel = sel.end_date - sel.start_date + 1 ∧
    previous_end sel = sel.start_date - 1 ∧
    previous_start sel = previous_end sel - period_days sel + 1 ∧
    previous_end sel - previous_start sel + 1 = period_days sel ∧
    (r ∈ previous_df df sel ↔
      r ∈ df ∧ previous_start sel ≤ r.date ∧ r.date ≤ previous_end sel ∧
        r.category ∈ sel.categories ∧ r.region ∈ sel.regions ∧ r.product ∈ sel.products) := by
  refine ⟨rfl, rfl, ?_, ?_, ?_⟩
  · unfold previous_start previous_end period_days
    ring
  · unfold previous_start previous_end period_days
    ring
  · simp [previous_df, List.mem_filter, matchesPrevious, and_assoc]

/-- Witness for C4 at the sample log and selection. -/
theorem previous_window_spec_witness :
    sel1.start_date ≤ sel1.end_date ∧
      (period_days sel1 = sel1.end_date - sel1.start_date + 1 ∧
        previous_end sel1 = sel1.start_date - 1 ∧
        previous_start sel1 = previous_end sel1 - period_days sel1 + 1 ∧
        previous_end sel1 - previous_start sel1 + 1 = period_days sel1 ∧
        (t1 ∈ previous_df df1 sel1 ↔
          t1 ∈ df1 ∧ previous_start sel1 ≤ t1.date ∧ t1.date ≤ previous_end sel1 ∧
            t1.category ∈ sel1.categories ∧ t1.region ∈ sel1.regions ∧
            t1.product ∈ sel1.products)) :=
  ⟨by norm_num [sel1], previous_window_spec df1 sel1 t1 (by norm_num [sel1])⟩

/-- C5. An empty category, region or product multiselect empties the filtered
subset and zeroes every KPI, including the zero fallbacks of the average and
of the growth rate. -/
theorem empty_selection_zero_kpis (df : List Transaction) (sel : Selection)
    (h : sel.categories = [] ∨ sel.regions = [] ∨ sel.products = []) :
    filtered_df df sel = [] ∧
    total_revenue (filtered_df df sel) = 0 ∧
    total_transactions (filtered_df df sel) = 0 ∧
    avg_transaction (filtered_df df sel) = 0 ∧
    total_quantity (filtered_df df sel) = 0 ∧
    growth_rate_kpi df sel = 0 := by
  have hf : filtered_df df sel = [] := by
    unfold filtered_df
    apply List.filter_eq_nil_iff.mpr
    intro r hr
    rcases h with h | h | h <;> simp [matchesFilters, h]
  have hp : previous_df df sel = [] := by
    unfold previous_df
    apply List.filter_eq_nil_iff.mpr
    intro r hr
    rcases h with h | h | h <;> simp [matchesPrevious, h]
  refine ⟨hf, ?_, ?_, ?_, ?_, ?_⟩ <;>
    simp [hf, hp, total_revenue, total_transactions, avg_transaction, total_quantity,
      growth_rate_kpi, growth_rate]

/-- Witness for C5 at the sample log and the empty-category selection. -/
theorem empty_selection_zero_kpis_witness :
    (selEmpty.categories = [] ∨ selEmpty.regions = [] ∨ selEmpty.products = []) ∧
      (filtered_df df1 selEmpty = [] ∧
        total_revenue (filtered_df df1 selEmpty) = 0 ∧
        total_transactions (filtered_df df1 selEmpty) = 0 ∧
        avg_transaction (filtered_df df1 selEmpty) = 0 ∧
        total_quantity (filtered_df df1 selEmpty) = 0 ∧
        growth_rate_kpi df1 selEmpty = 0) :=
  ⟨Or.inl rfl, empty_selection_zero_kpis df1 selEmpty (Or.inl rfl)⟩

/-- C6. The generator is deterministic: two runs reading the same seeded
pseudo-random stream produce identical logs (same records, same order, hence
the same count). -/
theorem generator_deterministic (f g : ℕ → ℚ) (h : ∀ n, f n = g n) :
    generate_sales_data f = generate_sales_data g ∧
      (generate_sales_data f).length = (generate_sales_data g).length := by
  have hfg : f = g := funext h
  rw [hfg]
  exact ⟨rfl, rfl⟩

/-- Witness for C6 at the all-zero stream. -/
theorem generator_deterministic_witness :
    (∀ n : ℕ, zeroStream n = zeroStream n) ∧
      (generate_sales_data zeroStream = generate_sales_data zeroStream ∧
        (generate_sales_data zeroStream).length = (generate_sales_data zeroStream).length) :=
  ⟨fun _ => rfl, generator_deterministic zeroStream zeroStream (fun _ => rfl)⟩

/-- C7. The by-product revenue table is sorted by descending revenue with at
most 8 rows, and the top-selling table is sorted by descending revenue with at
most 5 rows. -/
theorem topn_truncation (l : List Transaction) :
    List.Sorted revDescPair (product_revenue l) ∧ (product_revenue l).length ≤ 8 ∧
    List.Sorted revDescTriple (top_products l) ∧ (top_products l).length ≤ 5 := by
  refine ⟨?_, ?_, ?_, ?_⟩
  · exact (List.sorted_insertionSort revDescPair _).sublist (List.take_sublist 8 _)
  · exact List.length_take_le 8 _
  · exact (List.sorted_insertionSort revDescTriple _).sublist (List.take_sublist 5 _)
  · exact List.length_take_le 5 _

/-- C9. The previous-period window ends the day before the current window
starts, so no record lies in both the filtered and the previous-period
subsets. -/
theorem windows_disjoint (df : List Transaction) (sel : Selection) (r : Transaction)
    (h : sel.start_date ≤ sel.end_date) :
    previous_end sel = sel.start_date - 1 ∧ previous_end sel < sel.start_date ∧
    ¬(r ∈ filtered_df df sel ∧ r ∈ previous_df df sel) := by
  refine ⟨rfl, by unfold previous_end; omega, ?_⟩
  rintro ⟨h1, h2⟩
  have g1 := (List.mem_filter.mp h1).2
  have g2 := (List.mem_filter.mp h2).2
  simp [matchesFilters] at g1
  simp [matchesPrevious, previous_end] at g2
  omega

/-- Witness for C9 at the sample log and selection. -/
theorem windows_disjoint_witness :
    sel1.start_date ≤ sel1.end_date ∧
      (previous_end sel1 = sel1.start_date - 1 ∧ previous_end sel1 < sel1.start_date ∧
        ¬(t1 ∈ filtered_df df1 sel1 ∧ t1 ∈ previous_df df1 sel1)) :=
  ⟨by norm_num [sel1], windows_disjoint df1 sel1 t1 (by norm_num [sel1])⟩

/-- C10. Filtering never modifies the log: both derived subsets are
subsequences of the log, so every record they contain occurs in the log with
all fields unchanged and in the same relative order. -/
theorem filtering_is_sublist (df : List Transaction) (sel : Selection) :
    List.Sublist (filtered_df df sel) df ∧ List.Sublist (previous_df df sel) df :=
  ⟨List.filter_sublist df, List.filter_sublist df⟩

/-- C1 (amended). Every generated record's stored revenue equals
`round(raw_price * quantity, 2)` for the raw (unrounded) drawn price, whose
2-decimal rounding is the stored unit price; the raw price lies in the
product's price range. -/
theorem revenue_from_raw_price (f : ℕ → ℚ) (hf : UnitStream f) (r : Transaction)
    (hr : r ∈ generate_sales_data f) :
    ∃ p, priceLo r.product ≤ p ∧ p < priceHi r.product ∧
      r.unit_price = round2 p ∧ r.revenue = round2 (p * (r.quantity : ℚ)) := by
  obtain ⟨⟨j, hj⟩, _⟩ := mem_genDays dateRange 0 hr
  rw [hj]
  obtain ⟨_, _, _, _, _, _, p, hp1, hp2, hp3, hp4⟩ := genTransaction_spec f hf j r.date
  exact ⟨p, hp1, hp2, hp3, hp4⟩

/-- Witness for C1 (amended) at the all-zero stream and the first generated
record. -/
theorem revenue_from_raw_price_witness :
    UnitStream zeroStream ∧
      genTransaction zeroStream 1 0 ∈ generate_sales_data zeroStream ∧
      ∃ p, priceLo (genTransaction zeroStream 1 0).product ≤ p ∧
        p < priceHi (genTransaction zeroStream 1 0).product ∧
        (genTransaction zeroStream 1 0).unit_price = round2 p ∧
        (genTransaction zeroStream 1 0).revenue =
          round2 (p * ((genTransaction zeroStream 1 0).quantity : ℚ)) :=
  ⟨zeroStream_unit, head_mem_generate zeroStream,
    revenue_from_raw_price zeroStream zeroStream_unit _ (head_mem_generate zeroStream)⟩

/-- A unit-draw stream whose first day yields a Laptop at raw price
`500.004` with quantity 5: stored unit price 500.00, stored revenue 2500.02. -/
def cf : ℕ → ℚ := fun n => if n = 2 then 1/375000 else if n = 3 then 4/9 else 0

theorem cf_unit : UnitStream cf := by
  intro n
  unfold cf
  split_ifs <;> constructor <;> norm_num

theorem cf_product : txProduct cf 1 = "Laptop" := by
  have h1 : cf 1 = 0 := by norm_num [cf]
  rw [txProduct, h1, choiceDraw_zero]
  rfl

theorem cf_price : txPrice cf 1 = 500 + 1/250 := by
  rw [txPrice, cf_product]
  have h2 : cf (1 + 1) = 1/375000 := by norm_num [cf]
  rw [h2, show priceLo "Laptop" = 500 by norm_num [priceLo],
    show priceHi "Laptop" = 2000 by norm_num [priceHi]]
  unfold uniformDraw
  norm_num

theorem cf_quantity : txQuantity cf 1 = 5 := by
  rw [txQuantity]
  have h3 : cf (1 + 2) = 4/9 := by norm_num [cf]
  rw [h3]
  unfold randBelow
  have h : floorQ ((4/9 : ℚ) * (((10 : ℕ) : ℚ) - ((1 : ℕ) : ℚ))) = 4 := by
    rw [show ((4 : ℚ)/9 * (((10 : ℕ) : ℚ) - ((1 : ℕ) : ℚ))) = 4 by norm_num]
    exact floorQ_eq_of (by norm_num) (by norm_num)
  rw [h]
  rfl

theorem round2_of_cf_price : round2 (500 + 1/250) = 500 := by
  rw [round2, show ((500 + 1/250 : ℚ) * 100 + 1/2) = 50000 + 9/10 by norm_num,
    floorQ_eq_of (show ((50000 : ℤ) : ℚ) ≤ 50000 + 9/10 by norm_num) (by norm_num)]
  norm_num

theorem round2_of_cf_revenue : round2 ((500 + 1/250) * (5 : ℚ)) = 2500 + 1/50 := by
  rw [round2, show ((500 + 1/250 : ℚ) * 5 * 100 + 1/2) = 250002 + 1/2 by norm_num,
    floorQ_eq_of (show ((250002 : ℤ) : ℚ) ≤ 250002 + 1/2 by norm_num) (by norm_num)]
  norm_num

/-- C1 counterexample. It is not the case that every generated record's stored
revenue equals `round(quantity * unit_price, 2)` for the STORED (rounded)
unit price: with raw price 500.004 and quantity 5 the code stores revenue
2500.02 but unit price 500.00, and `round(5 * 500.00, 2) = 2500.00`. -/
theorem revenue_identity_counterexample :
    ¬ ∀ (f : ℕ → ℚ), UnitStream f →
        ∀ r ∈ generate_sales_data f,
          r.revenue = round2 ((r.quantity : ℚ) * r.unit_price) := by
  intro h
  have hr := h cf cf_unit (genTransaction cf 1 0) (head_mem_generate cf)
  have hq : (genTransaction cf 1 0).quantity = 5 := cf_quantity
  have hu : (genTransaction cf 1 0).unit_price = 500 := by
    show round2 (txPrice cf 1) = 500
    rw [cf_price]
    exact round2_of_cf_price
  have hv : (genTransaction cf 1 0).revenue = 2500 + 1/50 := by
    show round2 (txPrice cf 1 * ((txQuantity cf 1 : ℕ) : ℚ)) = 2500 + 1/50
    rw [cf_price, cf_quantity, show (((5 : ℕ)) : ℚ) = 5 by norm_num]
    exact round2_of_cf_revenue
  rw [hq, hu, hv, show (((5 : ℕ)) : ℚ) = 5 by norm_num] at hr
  rw [round2, show ((5 : ℚ) * 500 * 100 + 1/2) = 250000 + 1/2 by norm_num,
    floorQ_eq_of (show ((250000 : ℤ) : ℚ) ≤ 250000 + 1/2 by norm_num) (by norm_num)] at hr
  norm_num at hr

/-- C8. For every calendar day of the generation range the generated log holds
between 5 and 14 records of that day, and every record has a product from the
catalog, the category fixed by the product lookup, a quantity in `[1, 10)`,
and a unit price that is the 2-decimal rounding of a draw from the product's
category price range. -/
theorem generator_ranges (f : ℕ → ℚ) (hf : UnitStream f) :
    (∀ d ∈ dateRange,
      5 ≤ countDate (generate_sales_data f) d ∧ countDate (generate_sales_data f) d < 15) ∧
    (∀ r ∈ generate_sales_data f,
      r.product ∈ products ∧ r.category = categoryOf r.product ∧
      1 ≤ r.quantity ∧ r.quantity < 10 ∧
      ∃ p, priceLo r.product ≤ p ∧ p < priceHi r.product ∧ r.unit_price = round2 p) := by
  constructor
  · intro d hd
    exact countDate_genDays hf dateRange dateRange_nodup 0 d hd
  · intro r hr
    obtain ⟨⟨j, hj⟩, _⟩ := mem_genDays dateRange 0 hr
    rw [hj]
    obtain ⟨_, h2, h3, _, h5, h6, p, hp1, hp2, hp3, _⟩ := genTransaction_spec f hf j r.date
    exact ⟨h2, h3, h5, h6, p, hp1, hp2, hp3⟩

/-- Witness for C8 at the all-zero stream. -/
theorem generator_ranges_witness :
    UnitStream zeroStream ∧
      ((∀ d ∈ dateRange,
          5 ≤ countDate (generate_sales_data zeroStream) d ∧
            countDate (generate_sales_data zeroStream) d < 15) ∧
        (∀ r ∈ generate_sales_data zeroStream,
          r.product ∈ products ∧ r.category = categoryOf r.product ∧
          1 ≤ r.quantity ∧ r.quantity < 10 ∧
          ∃ p, priceLo r.product ≤ p ∧ p < priceHi r.product ∧ r.unit_price = round2 p)) :=
  ⟨zeroStream_unit, generator_ranges zeroStream zeroStream_unit⟩

end Dash
